import Mathlib

/-!
Shallow embedding of `src/transcribe_script.py`, a single-file audio
transcription utility built around `transcribe_audio(audio_path,
segment_length_sec)`.

Modelling choices:
* `AudioSeg` mirrors the pydub `AudioSegment` attributes the script reads:
  `channels`, `frame_rate`, and `len(audio)` in milliseconds (`length_ms`).
* External effects (file existence, `AudioSegment.from_file`, per-segment
  `segment.export` and `asr_model.transcribe`) are supplied by an `Env`
  record of outcomes; each fallible call is an `Except PyErr`.
* Python exceptions are the inductive `PyErr`; the two `except` clauses at
  lines 92-96 are modelled by `handlerFor` (a `FileNotFoundError` goes to
  the first clause, everything else to the generic one).
* The `math.ceil(total_length_ms / segment_length_ms)` at line 56 is
  embedded as exact natural ceiling division `(a + b - 1) / b`; the script
  divides by zero when `segment_length_ms = 0`, which the embedding models
  explicitly as `PyErr.zeroDivision` before any segment is produced.
* The temporary files of one run are identified by their segment index;
  `tempfile.NamedTemporaryFile(delete=False)` creates the file on disk, so
  the set of paths on disk when the `finally` block runs is exactly the
  recorded `temp_files` list, and the cleanup removes each recorded path
  that exists.
* The function attribute `transcribe_audio.asr_model` (lines 22-28) is
  process-wide state, passed in and out explicitly as an `Option ASRModel`.
  Loading happens before the `try` block, so a load failure escapes the
  function; this is modelled by `raisedToCaller`.
-/

namespace TranscribeScript

/-- Decoded audio buffer: the pydub `AudioSegment` attributes used by the
script (`channels`, `frame_rate` in Hz, and `len(audio)` in ms). -/
structure AudioSeg where
  channels : Nat
  frame_rate : Nat
  length_ms : Nat
deriving DecidableEq, Repr

/-- `audio.set_channels(c)` (only the attribute is tracked). -/
def set_channels (a : AudioSeg) (c : Nat) : AudioSeg :=
  { a with channels := c }

/-- `audio.set_frame_rate(r)` (only the attribute is tracked). -/
def set_frame_rate (a : AudioSeg) (r : Nat) : AudioSeg :=
  { a with frame_rate := r }

/-- Lines 44-51: conditional mono downmix and 16 kHz resample.  Returns the
resulting buffer together with two flags recording whether the channel
conversion and the resampling were actually performed. -/
def normalizeSteps (audio : AudioSeg) : AudioSeg × Bool × Bool :=
  let p1 : AudioSeg × Bool :=
    if audio.channels > 1 then (set_channels audio 1, true) else (audio, false)
  let p2 : AudioSeg × Bool :=
    if p1.1.frame_rate ≠ 16000 then (set_frame_rate p1.1 16000, true) else (p1.1, false)
  (p2.1, p1.2, p2.2)

/-- The normalized buffer (lines 44-51), dropping the step flags. -/
def normalize (audio : AudioSeg) : AudioSeg :=
  (normalizeSteps audio).1

/-- Line 56: `num_segments = math.ceil(total_length_ms / segment_length_ms)`,
as exact natural ceiling division (the script's float division is assumed
exact; for `segment_length_ms = 0` the script raises instead, handled in
`tryBody`). -/
def num_segments (total_length_ms segment_length_ms : Nat) : Nat :=
  (total_length_ms + segment_length_ms - 1) / segment_length_ms

/-- Lines 63-66: the list of `(start_time, end_time)` pairs produced by the
segment loop, `start = i * segment_length_ms`,
`end = min ((i+1) * segment_length_ms) total_length_ms`. -/
def segments (total_length_ms segment_length_ms : Nat) : List (Nat × Nat) :=
  (List.range (num_segments total_length_ms segment_length_ms)).map
    fun i => (i * segment_length_ms, min ((i + 1) * segment_length_ms) total_length_ms)

/-- One result element of `asr_model.transcribe([...])`; the script only
reads its `.text`. -/
structure TranscriptionResult where
  text : String
deriving DecidableEq, Repr

/-- Python exceptions relevant to the script. -/
inductive PyErr where
  /-- `FileNotFoundError` (e.g. ffmpeg missing), caught by line 92. -/
  | fileNotFound
  /-- `ZeroDivisionError` from line 56 when `segment_length_ms = 0`. -/
  | zeroDivision
  /-- any other exception, caught by the generic clause at line 95 -/
  | other (msg : String)
deriving DecidableEq, Repr

/-- Which `except` clause of lines 92-96 catches a given exception. -/
inductive Handler where
  | fileNotFoundClause
  | genericClause
deriving DecidableEq, Repr

/-- Lines 92-96: `except FileNotFoundError` first, `except Exception` next. -/
def handlerFor : PyErr → Handler
  | PyErr.fileNotFound => Handler.fileNotFoundClause
  | _ => Handler.genericClause

/-- The loaded ASR model instance (opaque to the script beyond identity). -/
structure ASRModel where
  id : Nat
deriving DecidableEq, Repr

/-- Outcomes of the external collaborators for one run: whether the input
path exists, the result of decoding it, and the per-segment outcomes of
`segment.export` and `asr_model.transcribe`. -/
structure Env where
  file_exists : Bool
  from_file : Except PyErr AudioSeg
  export_seg : Nat → Except PyErr Unit
  transcribe_seg : Nat → Except PyErr (List TranscriptionResult)

/-- Lines 81-84: the transcript fragment for one segment, from the list the
model returned (an empty list — Python-falsy — yields the placeholder). -/
def fragmentOf (res : List TranscriptionResult) : String :=
  match res with
  | [] => "[Transcription Failed for Segment]"
  | r :: _ => r.text

/-- Result of the segment loop of lines 63-84: the recorded temporary file
paths (by segment index), the segment indices whose export and whose
transcription were attempted, and either the collected fragments or the
exception that aborted the loop. -/
structure LoopResult where
  temps : List Nat
  exportsAttempted : List Nat
  transcribesAttempted : List Nat
  outcome : Except PyErr (List String)
deriving Repr

/-- Lines 63-84: process segments `i, i+1, ...` while `n` remain, with
accumulators for the fragments, recorded temp files, and attempted calls.
For each segment the temporary file is created and recorded (lines 69-71)
before the export (line 74) and the transcription (line 79) are attempted;
either may raise, aborting the loop with the files recorded so far. -/
def runLoop (env : Env) (i n : Nat) (frags : List String)
    (temps exps trs : List Nat) : LoopResult :=
  match n with
  | 0 => ⟨temps, exps, trs, Except.ok frags⟩
  | Nat.succ n =>
    let temps := temps ++ [i]
    let exps := exps ++ [i]
    match env.export_seg i with
    | Except.error e => ⟨temps, exps, trs, Except.error e⟩
    | Except.ok _ =>
      let trs := trs ++ [i]
      match env.transcribe_seg i with
      | Except.error e => ⟨temps, exps, trs, Except.error e⟩
      | Except.ok res => runLoop env (i + 1) n (frags ++ [fragmentOf res]) temps exps trs

/-- Observable result of the `try` block of lines 32-90. -/
structure TryResult where
  /-- line 35 was printed (input file missing) -/
  printedFileNotFound : Bool
  /-- `AudioSegment.from_file` (line 41) was invoked -/
  decoded : Bool
  tempFiles : List Nat
  exportsAttempted : List Nat
  transcribesAttempted : List Nat
  fragments : List String
  /-- `some` iff line 87 was reached; the string printed at line 90 -/
  finalTranscript : Option String
  /-- the exception escaping the `try` block, if any -/
  err : Option PyErr
deriving Repr

/-- Lines 32-90: the `try` block.  Checks file existence (lines 34-36),
decodes (line 41), normalizes (lines 44-51), computes the segmentation
(lines 54-56; `segment_length_ms = 0` raises `ZeroDivisionError` at the
division of line 56), runs the segment loop, and joins the fragments with
`" ".join` (line 87). -/
def tryBody (env : Env) (segment_length_sec : Nat) : TryResult :=
  if env.file_exists = false then
    { printedFileNotFound := true, decoded := false, tempFiles := [],
      exportsAttempted := [], transcribesAttempted := [], fragments := [],
      finalTranscript := none, err := none }
  else
    match env.from_file with
    | Except.error e =>
      { printedFileNotFound := false, decoded := true, tempFiles := [],
        exportsAttempted := [], transcribesAttempted := [], fragments := [],
        finalTranscript := none, err := some e }
    | Except.ok audio0 =>
      let audio := normalize audio0
      let segment_length_ms := segment_length_sec * 1000
      let total_length_ms := audio.length_ms
      if segment_length_ms = 0 then
        { printedFileNotFound := false, decoded := true, tempFiles := [],
          exportsAttempted := [], transcribesAttempted := [], fragments := [],
          finalTranscript := none, err := some PyErr.zeroDivision }
      else
        let r := runLoop env 0 (num_segments total_length_ms segment_length_ms) [] [] [] []
        match r.outcome with
        | Except.error e =>
          { printedFileNotFound := false, decoded := true, tempFiles := r.temps,
            exportsAttempted := r.exportsAttempted,
            transcribesAttempted := r.transcribesAttempted, fragments := [],
            finalTranscript := none, err := some e }
        | Except.ok frags =>
          { printedFileNotFound := false, decoded := true, tempFiles := r.temps,
            exportsAttempted := r.exportsAttempted,
            transcribesAttempted := r.transcribesAttempted, fragments := frags,
            finalTranscript := some (String.intercalate " " frags), err := none }

/-- Lines 97-103: the `finally` block removes every recorded temporary file
that exists on disk; `onDisk` is the list of paths on disk when it runs. -/
def cleanup (temp_files onDisk : List Nat) : List Nat :=
  onDisk.filter fun p => ¬ p ∈ temp_files

/-- Observable result of one call to `transcribe_audio`. -/
structure RunResult where
  /-- the exception escaping the whole function (only a model-load failure
  can: lines 22-28 run before the `try` block) -/
  raisedToCaller : Option PyErr
  /-- the process-wide `transcribe_audio.asr_model` attribute after the call -/
  cache : Option ASRModel
  /-- `from_pretrained` (line 25) was invoked during this call -/
  modelLoadAttempted : Bool
  /-- `some` iff the `try` block was entered -/
  body : Option TryResult
  /-- which `except` clause ran, if any -/
  caughtBy : Option Handler
  /-- temporary files of this run still on disk after the `finally` block -/
  tempFilesOnDiskAfter : List Nat
deriving Repr

/-- The whole `transcribe_audio` (lines 11-103).  `load` is the outcome
`from_pretrained(...).cuda()` would have, `cached` the current value of the
function attribute `transcribe_audio.asr_model`.  Model loading (lines
22-28) happens before the `try`, so its failure escapes; every exception
raised inside the `try` is caught by lines 92-96, and the `finally` block
(lines 97-103) removes each recorded temporary file, all of which are on
disk when it runs. -/
def transcribe_audio (load : Except PyErr ASRModel) (cached : Option ASRModel)
    (env : Env) (segment_length_sec : Nat) : RunResult :=
  match cached with
  | some m =>
    let b := tryBody env segment_length_sec
    { raisedToCaller := none, cache := some m, modelLoadAttempted := false,
      body := some b, caughtBy := b.err.map handlerFor,
      tempFilesOnDiskAfter := cleanup b.tempFiles b.tempFiles }
  | none =>
    match load with
    | Except.error e =>
      { raisedToCaller := some e, cache := none, modelLoadAttempted := true,
        body := none, caughtBy := none, tempFilesOnDiskAfter := [] }
    | Except.ok m =>
      let b := tryBody env segment_length_sec
      { raisedToCaller := none, cache := some m, modelLoadAttempted := true,
        body := some b, caughtBy := b.err.map handlerFor,
        tempFilesOnDiskAfter := cleanup b.tempFiles b.tempFiles }

/-- Line 87 seen as the Aggregator: `" ".join(all_transcriptions)`. -/
def aggregate (frags : List String) : String :=
  String.intercalate " " frags

/-- Modelled from the spec: "Joins the ordered sequence of Transcript
Fragments with a single space character between each" — the reference
join used to state the refinement for the Aggregator. -/
def joinSpaceSpec : List String → String
  | [] => ""
  | [x] => x
  | x :: y :: ys => x ++ " " ++ joinSpaceSpec (y :: ys)

/-- An environment where decoding succeeds with a mono 16 kHz buffer of
`len` milliseconds, every export succeeds, and segment `i` transcribes to
`tr i`. -/
def mkEnv (len : Nat) (tr : Nat → Except PyErr (List TranscriptionResult)) : Env :=
  { file_exists := true,
    from_file := Except.ok { channels := 1, frame_rate := 16000, length_ms := len },
    export_seg := fun _ => Except.ok (),
    transcribe_seg := tr }

/-- Three one-second segments; the model returns a result for segments 0
and 2 and an empty list for segment 1. -/
def env3 : Env :=
  mkEnv 3000 fun i =>
    if i = 0 then Except.ok [{ text := "text0" }]
    else if i = 1 then Except.ok []
    else Except.ok [{ text := "text2" }]

/- ### Helper lemmas -/

/-- The tail contribution of a space-join: `" " ++ y` for each later item. -/
def joinTail : List String → String
  | [] => ""
  | y :: ys => " " ++ y ++ joinTail ys

lemma intercalate_go_space (ys : List String) : ∀ acc : String,
    String.intercalate.go acc " " ys = acc ++ joinTail ys := by
  induction ys with
  | nil => intro acc; simp [String.intercalate.go, joinTail]
  | cons y ys ih =>
    intro acc
    simp only [String.intercalate.go, joinTail, ih, String.append_assoc]

lemma joinSpaceSpec_cons (x : String) (ys : List String) :
    joinSpaceSpec (x :: ys) = x ++ joinTail ys := by
  induction ys generalizing x with
  | nil => simp [joinSpaceSpec, joinTail]
  | cons y ys ih =>
    simp only [joinSpaceSpec, joinTail, ih, String.append_assoc]

/- ### Claims -/

/-- C6: the Aggregator (line 87, `" ".join`) joins the transcript fragments
in segment order with exactly one space between consecutive fragments —
it agrees with the spec's reference join `joinSpaceSpec` on every fragment
list — and on `["hello", "world"]` it produces `"hello world"`. -/
theorem c6_aggregator_joins_with_single_spaces :
    (∀ frags : List String, aggregate frags = joinSpaceSpec frags) ∧
    aggregate ["hello", "world"] = "hello world" := by
  refine ⟨fun frags => ?_, rfl⟩
  cases frags with
  | nil => rfl
  | cons x ys =>
    show String.intercalate.go x " " ys = _
    rw [intercalate_go_space, joinSpaceSpec_cons]

/-- C8: normalization (lines 44-51) of a buffer that is already mono
(1 channel) and already at 16000 Hz performs neither the channel conversion
nor the resampling, and leaves the buffer unchanged. -/
theorem c8_normalize_idempotent (a : AudioSeg) (h1 : a.channels = 1)
    (h2 : a.frame_rate = 16000) : normalizeSteps a = (a, false, false) := by
  obtain ⟨c, r, len⟩ := a
  cases h1
  cases h2
  rfl

/-- Witness for C8 at a concrete mono 16 kHz buffer. -/
theorem c8_normalize_idempotent_witness :
    (AudioSeg.mk 1 16000 42).channels = 1 ∧
    (AudioSeg.mk 1 16000 42).frame_rate = 16000 ∧
    normalizeSteps (AudioSeg.mk 1 16000 42) = (AudioSeg.mk 1 16000 42, false, false) :=
  ⟨rfl, rfl, c8_normalize_idempotent (AudioSeg.mk 1 16000 42) rfl rfl⟩

/-- C9: the model attribute (lines 22-28) is a lazily initialized
process-wide singleton: a first call with an empty cache performs the load
and stores the instance, and any call with a populated cache performs no
load and keeps the same instance. -/
theorem c9_model_singleton (m : ASRModel) (load2 : Except PyErr ASRModel)
    (env env2 : Env) (s s2 : Nat) :
    (transcribe_audio (Except.ok m) none env s).modelLoadAttempted = true ∧
    (transcribe_audio (Except.ok m) none env s).cache = some m ∧
    (transcribe_audio load2 (some m) env2 s2).modelLoadAttempted = false ∧
    (transcribe_audio load2 (some m) env2 s2).cache = some m :=
  ⟨rfl, rfl, rfl, rfl⟩

/-- C3: per segment (lines 81-84), a transcription result list with at
least one result yields that result's text as the fragment, an empty list
yields the placeholder, and the three-segment run `env3` (no result for
segment 2 of 3) yields
`[text0, "[Transcription Failed for Segment]", text2]`. -/
theorem c3_transcript_fragment :
    (∀ (r : TranscriptionResult) (rs : List TranscriptionResult),
        fragmentOf (r :: rs) = r.text) ∧
    fragmentOf [] = "[Transcription Failed for Segment]" ∧
    (tryBody env3 1).fragments
      = ["text0", "[Transcription Failed for Segment]", "text2"] :=
  ⟨fun _ _ => rfl, rfl, rfl⟩

lemma normalize_length (a : AudioSeg) : (normalize a).length_ms = a.length_ms := by
  unfold normalize normalizeSteps set_channels set_frame_rate
  dsimp only
  split <;> split <;> rfl

lemma cleanup_self (l : List Nat) : cleanup l l = [] := by
  unfold cleanup
  rw [List.filter_eq_nil_iff]
  intro a ha
  simp [ha]

lemma runLoop_subsets (env : Env) : ∀ (n i : Nat) (frags : List String)
    (temps exps trs : List Nat), exps ⊆ temps → trs ⊆ temps →
    (runLoop env i n frags temps exps trs).exportsAttempted
        ⊆ (runLoop env i n frags temps exps trs).temps ∧
    (runLoop env i n frags temps exps trs).transcribesAttempted
        ⊆ (runLoop env i n frags temps exps trs).temps := by
  intro n
  induction n with
  | zero => intro i frags temps exps trs h1 h2; exact ⟨h1, h2⟩
  | succ n ih =>
    intro i frags temps exps trs h1 h2
    have hsub1 : exps ++ [i] ⊆ temps ++ [i] :=
      List.append_subset.2 ⟨h1.trans (List.subset_append_left _ _),
        List.subset_append_right _ _⟩
    have hsub2 : trs ⊆ temps ++ [i] := h2.trans (List.subset_append_left _ _)
    have hsub3 : trs ++ [i] ⊆ temps ++ [i] :=
      List.append_subset.2 ⟨hsub2, List.subset_append_right _ _⟩
    cases hexp : env.export_seg i with
    | error e => simp only [runLoop, hexp]; exact ⟨hsub1, hsub2⟩
    | ok u =>
      cases htr : env.transcribe_seg i with
      | error e => simp only [runLoop, hexp, htr]; exact ⟨hsub1, hsub3⟩
      | ok res =>
        simp only [runLoop, hexp, htr]
        exact ih (i + 1) (frags ++ [fragmentOf res]) (temps ++ [i])
          (exps ++ [i]) (trs ++ [i]) hsub1 hsub3

lemma tryBody_subsets (env : Env) (s : Nat) :
    (tryBody env s).exportsAttempted ⊆ (tryBody env s).tempFiles ∧
    (tryBody env s).transcribesAttempted ⊆ (tryBody env s).tempFiles := by
  unfold tryBody
  split
  · simp
  · cases hdec : env.from_file with
    | error e => simp
    | ok audio0 =>
      dsimp only
      split
      · simp
      · cases houtcome : (runLoop env 0
            (num_segments (normalize audio0).length_ms (s * 1000))
            [] [] [] []).outcome with
        | error e =>
          simp only [houtcome]
          exact runLoop_subsets env _ 0 [] [] [] []
            (List.nil_subset _) (List.nil_subset _)
        | ok frags =>
          simp only [houtcome]
          exact runLoop_subsets env _ 0 [] [] [] []
            (List.nil_subset _) (List.nil_subset _)

/-- C2: after any run of `transcribe_audio` (the `try` block completing or
raising anywhere), the `finally` block has removed every recorded temporary
file, so none of the run's temporary files remain on disk; and each
segment's temporary file is recorded in `temp_files` before that segment's
export or transcription is attempted. -/
theorem c2_temp_file_cleanup (load : Except PyErr ASRModel)
    (cached : Option ASRModel) (env : Env) (s : Nat) :
    (transcribe_audio load cached env s).tempFilesOnDiskAfter = [] ∧
    (tryBody env s).exportsAttempted ⊆ (tryBody env s).tempFiles ∧
    (tryBody env s).transcribesAttempted ⊆ (tryBody env s).tempFiles := by
  refine ⟨?_, tryBody_subsets env s⟩
  cases cached with
  | some m => simpa [transcribe_audio] using cleanup_self (tryBody env s).tempFiles
  | none =>
    cases load with
    | error e => rfl
    | ok m => simpa [transcribe_audio] using cleanup_self (tryBody env s).tempFiles

/-- The claim C4 asserts that a model-load failure is caught inside
`transcribe_audio`; in the script the load (lines 22-28) happens before the
`try` block, so on a first call whose load fails the exception escapes to
the caller. -/
theorem c4_counterexample :
    (transcribe_audio (Except.error (PyErr.other "model load failed")) none
        (mkEnv 1000 fun _ => Except.ok [{ text := "hi" }]) 60).raisedToCaller
      = some (PyErr.other "model load failed") := rfl

/-- C4 (amended): whenever the model is available (already cached, or the
load succeeds), every exception raised during the run is caught inside
`transcribe_audio` by the `except` clauses of lines 92-96 — converted to a
printed message per its handler — and the function returns normally. -/
theorem c4_amended_errors_caught (load : Except PyErr ASRModel)
    (cached : Option ASRModel) (env : Env) (s : Nat) (m : ASRModel)
    (h : cached = some m ∨ load = Except.ok m) :
    (transcribe_audio load cached env s).raisedToCaller = none ∧
    (transcribe_audio load cached env s).body = some (tryBody env s) ∧
    (transcribe_audio load cached env s).caughtBy
      = Option.map handlerFor (tryBody env s).err := by
  rcases h with h | h
  · subst h; exact ⟨rfl, rfl, rfl⟩
  · cases cached with
    | some m2 => exact ⟨rfl, rfl, rfl⟩
    | none => subst h; exact ⟨rfl, rfl, rfl⟩

/-- Witness for C4 (amended): a first call whose load succeeds but whose
transcription raises returns normally with the error caught generically. -/
theorem c4_amended_errors_caught_witness :
    ((none : Option ASRModel) = some (ASRModel.mk 0) ∨
        (Except.ok (ASRModel.mk 0) : Except PyErr ASRModel)
          = Except.ok (ASRModel.mk 0)) ∧
    ((transcribe_audio (Except.ok (ASRModel.mk 0)) none
        (mkEnv 1000 fun _ => Except.error (PyErr.other "inference failed"))
        60).raisedToCaller = none ∧
      (transcribe_audio (Except.ok (ASRModel.mk 0)) none
        (mkEnv 1000 fun _ => Except.error (PyErr.other "inference failed"))
        60).body = some (tryBody
          (mkEnv 1000 fun _ => Except.error (PyErr.other "inference failed")) 60) ∧
      (transcribe_audio (Except.ok (ASRModel.mk 0)) none
        (mkEnv 1000 fun _ => Except.error (PyErr.other "inference failed"))
        60).caughtBy = Option.map handlerFor (tryBody
          (mkEnv 1000 fun _ => Except.error (PyErr.other "inference failed")) 60).err) :=
  ⟨Or.inr rfl, c4_amended_errors_caught _ _ _ _ (ASRModel.mk 0) (Or.inr rfl)⟩

/-- C5: with a zero-length audio buffer and a positive segment duration,
the segmenter yields no segments, the loop runs zero times (no temp files,
no fragments), and the final transcript is the empty string. -/
theorem c5_empty_audio (D : Nat) (hD : 0 < D) (env : Env) (audio : AudioSeg)
    (hex : env.file_exists = true) (hdec : env.from_file = Except.ok audio)
    (hlen : audio.length_ms = 0) :
    segments 0 (D * 1000) = [] ∧
    (tryBody env D).tempFiles = [] ∧
    (tryBody env D).fragments = [] ∧
    (tryBody env D).finalTranscript = some "" := by
  have hL : 0 < D * 1000 := Nat.mul_pos hD (by norm_num)
  have hnum : num_segments 0 (D * 1000) = 0 := by
    unfold num_segments
    exact Nat.div_eq_of_lt (by omega)
  have hseg : segments 0 (D * 1000) = [] := by simp [segments, hnum]
  refine ⟨hseg, ?_⟩
  have hnorm : (normalize audio).length_ms = 0 := by rw [normalize_length, hlen]
  unfold tryBody
  rw [hex, hdec]
  simp only [hnorm, hnum]
  have hne : ¬ D * 1000 = 0 := by omega
  simp [hne, runLoop, String.intercalate]

/-- Witness for C5 at `D = 60` on a zero-length decodable input. -/
theorem c5_empty_audio_witness :
    0 < 60 ∧
    (mkEnv 0 fun _ => Except.ok []).file_exists = true ∧
    (mkEnv 0 fun _ => Except.ok []).from_file
      = Except.ok (AudioSeg.mk 1 16000 0) ∧
    (AudioSeg.mk 1 16000 0).length_ms = 0 ∧
    (segments 0 (60 * 1000) = [] ∧
      (tryBody (mkEnv 0 fun _ => Except.ok []) 60).tempFiles = [] ∧
      (tryBody (mkEnv 0 fun _ => Except.ok []) 60).fragments = [] ∧
      (tryBody (mkEnv 0 fun _ => Except.ok []) 60).finalTranscript = some "") :=
  ⟨by decide, rfl, rfl, rfl,
    c5_empty_audio 60 (by decide) (mkEnv 0 fun _ => Except.ok [])
      (AudioSeg.mk 1 16000 0) rfl rfl rfl⟩

/-- An environment whose input file is missing. -/
def envMissing : Env :=
  { file_exists := false,
    from_file := Except.error (PyErr.other "unused"),
    export_seg := fun _ => Except.ok (),
    transcribe_seg := fun _ => Except.ok [] }

/-- The claim C7 asserts an unconditional normal return whenever the input
path is missing; on a first call whose model load fails, lines 22-28 raise
before the file check at line 34 ever runs, so the call raises and the
file-not-found message is never printed even though the file is missing. -/
theorem c7_counterexample :
    envMissing.file_exists = false ∧
    (transcribe_audio (Except.error (PyErr.other "cuda unavailable")) none
        envMissing 60).raisedToCaller = some (PyErr.other "cuda unavailable") ∧
    (transcribe_audio (Except.error (PyErr.other "cuda unavailable")) none
        envMissing 60).body = none :=
  ⟨rfl, rfl, rfl⟩

/-- C7 (amended): when the input path does not exist and the model is
available (already cached, or this call loads it successfully), the run
prints the file-not-found message (line 35) and returns normally with no
exception, having decoded nothing, created no temporary file, attempted no
export or transcription, and produced no transcript. -/
theorem c7_missing_input_file (m : ASRModel) (load : Except PyErr ASRModel)
    (cached : Option ASRModel) (s : Nat) (env : Env)
    (hm : cached = some m ∨ load = Except.ok m)
    (h : env.file_exists = false) :
    (transcribe_audio load cached env s).raisedToCaller = none ∧
    (transcribe_audio load cached env s).body = some (tryBody env s) ∧
    (tryBody env s).printedFileNotFound = true ∧
    (tryBody env s).decoded = false ∧
    (tryBody env s).tempFiles = [] ∧
    (tryBody env s).exportsAttempted = [] ∧
    (tryBody env s).transcribesAttempted = [] ∧
    (tryBody env s).fragments = [] ∧
    (tryBody env s).finalTranscript = none ∧
    (tryBody env s).err = none := by
  have ht : tryBody env s =
      { printedFileNotFound := true, decoded := false, tempFiles := [],
        exportsAttempted := [], transcribesAttempted := [], fragments := [],
        finalTranscript := none, err := none } := by
    unfold tryBody
    rw [h]
    rfl
  have hrest : (tryBody env s).printedFileNotFound = true ∧
      (tryBody env s).decoded = false ∧
      (tryBody env s).tempFiles = [] ∧
      (tryBody env s).exportsAttempted = [] ∧
      (tryBody env s).transcribesAttempted = [] ∧
      (tryBody env s).fragments = [] ∧
      (tryBody env s).finalTranscript = none ∧
      (tryBody env s).err = none := by
    rw [ht]
    exact ⟨rfl, rfl, rfl, rfl, rfl, rfl, rfl, rfl⟩
  rcases hm with hm | hm
  · subst hm
    exact ⟨rfl, rfl, hrest⟩
  · cases cached with
    | some m2 => exact ⟨rfl, rfl, hrest⟩
    | none =>
      subst hm
      exact ⟨rfl, rfl, hrest⟩

/-- Witness for C7 (amended) on a concrete missing-file environment with
the model already cached. -/
theorem c7_missing_input_file_witness :
    ((some (ASRModel.mk 0) : Option ASRModel) = some (ASRModel.mk 0) ∨
        (Except.ok (ASRModel.mk 0) : Except PyErr ASRModel)
          = Except.ok (ASRModel.mk 0)) ∧
    envMissing.file_exists = false ∧
    ((transcribe_audio (Except.ok (ASRModel.mk 0)) (some (ASRModel.mk 0))
        envMissing 60).raisedToCaller = none ∧
      (transcribe_audio (Except.ok (ASRModel.mk 0)) (some (ASRModel.mk 0))
        envMissing 60).body = some (tryBody envMissing 60) ∧
      (tryBody envMissing 60).printedFileNotFound = true ∧
      (tryBody envMissing 60).decoded = false ∧
      (tryBody envMissing 60).tempFiles = [] ∧
      (tryBody envMissing 60).exportsAttempted = [] ∧
      (tryBody envMissing 60).transcribesAttempted = [] ∧
      (tryBody envMissing 60).fragments = [] ∧
      (tryBody envMissing 60).finalTranscript = none ∧
      (tryBody envMissing 60).err = none) :=
  ⟨Or.inl rfl, rfl, c7_missing_input_file (ASRModel.mk 0)
    (Except.ok (ASRModel.mk 0)) (some (ASRModel.mk 0)) 60 envMissing
    (Or.inl rfl) rfl⟩

/-- The claim C10 asserts that with `segment_length_sec = 0` on an
existing, decodable file the function always returns normally; on a first
call whose model load fails, lines 22-28 raise before the division at line
56 is ever reached, so the call raises instead. -/
theorem c10_counterexample :
    (mkEnv 5000 fun _ => Except.ok []).file_exists = true ∧
    (mkEnv 5000 fun _ => Except.ok []).from_file
      = Except.ok (AudioSeg.mk 1 16000 5000) ∧
    (transcribe_audio (Except.error (PyErr.other "cuda unavailable")) none
        (mkEnv 5000 fun _ => Except.ok []) 0).raisedToCaller
      = some (PyErr.other "cuda unavailable") ∧
    (transcribe_audio (Except.error (PyErr.other "cuda unavailable")) none
        (mkEnv 5000 fun _ => Except.ok []) 0).body = none :=
  ⟨rfl, rfl, rfl, rfl⟩

/-- C10 (amended): calling with `segment_length_sec = 0` on an existing,
decodable file, with the model available (already cached, or this call
loads it successfully), raises `ZeroDivisionError` at line 56, which the
generic handler of line 95 catches; no temporary file is created, no
segment is exported or transcribed, and the call returns normally. -/
theorem c10_zero_segment_length (m : ASRModel) (load : Except PyErr ASRModel)
    (cached : Option ASRModel) (env : Env) (audio : AudioSeg)
    (hm : cached = some m ∨ load = Except.ok m)
    (hex : env.file_exists = true)
    (hdec : env.from_file = Except.ok audio) :
    (transcribe_audio load cached env 0).raisedToCaller = none ∧
    (transcribe_audio load cached env 0).caughtBy
      = some Handler.genericClause ∧
    (transcribe_audio load cached env 0).tempFilesOnDiskAfter = [] ∧
    (tryBody env 0).err = some PyErr.zeroDivision ∧
    (tryBody env 0).tempFiles = [] ∧
    (tryBody env 0).exportsAttempted = [] ∧
    (tryBody env 0).transcribesAttempted = [] ∧
    (tryBody env 0).fragments = [] ∧
    (tryBody env 0).finalTranscript = none := by
  have ht : tryBody env 0 =
      { printedFileNotFound := false, decoded := true, tempFiles := [],
        exportsAttempted := [], transcribesAttempted := [], fragments := [],
        finalTranscript := none, err := some PyErr.zeroDivision } := by
    unfold tryBody
    rw [hex, hdec]
    rfl
  have hcb : ((tryBody env 0).err.map handlerFor)
      = some Handler.genericClause := by
    rw [ht]
    rfl
  have hcl : cleanup (tryBody env 0).tempFiles (tryBody env 0).tempFiles
      = [] := by
    rw [ht]
    rfl
  have hrest : (tryBody env 0).err = some PyErr.zeroDivision ∧
      (tryBody env 0).tempFiles = [] ∧
      (tryBody env 0).exportsAttempted = [] ∧
      (tryBody env 0).transcribesAttempted = [] ∧
      (tryBody env 0).fragments = [] ∧
      (tryBody env 0).finalTranscript = none := by
    rw [ht]
    exact ⟨rfl, rfl, rfl, rfl, rfl, rfl⟩
  rcases hm with hm | hm
  · subst hm
    exact ⟨rfl, hcb, hcl, hrest⟩
  · cases cached with
    | some m2 => exact ⟨rfl, hcb, hcl, hrest⟩
    | none =>
      subst hm
      exact ⟨rfl, hcb, hcl, hrest⟩

/-- Witness for C10 (amended) on a concrete decodable five-second input
with the model already cached. -/
theorem c10_zero_segment_length_witness :
    ((some (ASRModel.mk 0) : Option ASRModel) = some (ASRModel.mk 0) ∨
        (Except.ok (ASRModel.mk 0) : Except PyErr ASRModel)
          = Except.ok (ASRModel.mk 0)) ∧
    (mkEnv 5000 fun _ => Except.ok []).file_exists = true ∧
    (mkEnv 5000 fun _ => Except.ok []).from_file
      = Except.ok (AudioSeg.mk 1 16000 5000) ∧
    ((transcribe_audio (Except.ok (ASRModel.mk 0)) (some (ASRModel.mk 0))
        (mkEnv 5000 fun _ => Except.ok []) 0).raisedToCaller = none ∧
      (transcribe_audio (Except.ok (ASRModel.mk 0)) (some (ASRModel.mk 0))
        (mkEnv 5000 fun _ => Except.ok []) 0).caughtBy
        = some Handler.genericClause ∧
      (transcribe_audio (Except.ok (ASRModel.mk 0)) (some (ASRModel.mk 0))
        (mkEnv 5000 fun _ => Except.ok []) 0).tempFilesOnDiskAfter = [] ∧
      (tryBody (mkEnv 5000 fun _ => Except.ok []) 0).err
        = some PyErr.zeroDivision ∧
      (tryBody (mkEnv 5000 fun _ => Except.ok []) 0).tempFiles = [] ∧
      (tryBody (mkEnv 5000 fun _ => Except.ok []) 0).exportsAttempted = [] ∧
      (tryBody (mkEnv 5000 fun _ => Except.ok []) 0).transcribesAttempted = [] ∧
      (tryBody (mkEnv 5000 fun _ => Except.ok []) 0).fragments = [] ∧
      (tryBody (mkEnv 5000 fun _ => Except.ok []) 0).finalTranscript = none) :=
  ⟨Or.inl rfl, rfl, rfl, c10_zero_segment_length (ASRModel.mk 0)
    (Except.ok (ASRModel.mk 0)) (some (ASRModel.mk 0))
    (mkEnv 5000 fun _ => Except.ok []) (AudioSeg.mk 1 16000 5000)
    (Or.inl rfl) rfl rfl⟩

lemma segments_length (T L : Nat) :
    (segments T L).length = num_segments T L := by
  simp [segments]

lemma segments_get (T L i : Nat) (h : i < (segments T L).length) :
    (segments T L).get ⟨i, h⟩ = (i * L, min ((i + 1) * L) T) := by
  simp [segments]

lemma lt_num_segments_iff {L : Nat} (hL : 0 < L) (T i : Nat) :
    i < num_segments T L ↔ i * L < T := by
  unfold num_segments
  rw [Nat.lt_iff_add_one_le, Nat.le_div_iff_mul_le hL,
    show (i + 1) * L = i * L + L from by ring]
  generalize i * L = x
  omega

lemma le_num_segments_mul {L : Nat} (hL : 0 < L) (T : Nat) :
    T ≤ num_segments T L * L :=
  Nat.not_lt.1 fun hlt =>
    Nat.lt_irrefl _ ((lt_num_segments_iff hL T _).mpr hlt)

/-- The full segmenter contract of lines 54-66 for segment duration `D`
seconds and total duration `T` milliseconds: the number of segments is the
ceiling of `T / (D * 1000)`; segment `i` runs from `i * D * 1000` to
`min ((i + 1) * D * 1000) T`; consecutive segments are adjacent; the first
starts at `0`; the last ends at `T`; and every instant `t < T` lies in
exactly one segment. -/
def SegmenterSpec (D T : Nat) : Prop :=
  (segments T (D * 1000)).length = T ⌈/⌉ (D * 1000) ∧
  (∀ (i : Nat) (h : i < (segments T (D * 1000)).length),
      (segments T (D * 1000)).get ⟨i, h⟩
        = (i * (D * 1000), min ((i + 1) * (D * 1000)) T)) ∧
  (∀ (i : Nat) (h : i < (segments T (D * 1000)).length)
      (h2 : i + 1 < (segments T (D * 1000)).length),
      ((segments T (D * 1000)).get ⟨i, h⟩).2
        = ((segments T (D * 1000)).get ⟨i + 1, h2⟩).1) ∧
  (∀ h : segments T (D * 1000) ≠ [],
      ((segments T (D * 1000)).head h).1 = 0) ∧
  (∀ h : segments T (D * 1000) ≠ [],
      ((segments T (D * 1000)).getLast h).2 = T) ∧
  (∀ t, t < T → ∃! i : Nat, ∃ h : i < (segments T (D * 1000)).length,
      ((segments T (D * 1000)).get ⟨i, h⟩).1 ≤ t ∧
        t < ((segments T (D * 1000)).get ⟨i, h⟩).2)

/-- C1: for every positive segment duration `D` (seconds) and every total
duration `T` (milliseconds), the segmenter (lines 54-66) produces exactly
`⌈T / (D * 1000)⌉` segments with the stated bounds, partitioning `[0, T)`
in order without gaps or overlaps, the last segment ending at `T`. -/
theorem c1_segmenter_partition (D T : Nat) (hD : 0 < D) : SegmenterSpec D T := by
  have hL : 0 < D * 1000 := Nat.mul_pos hD (by norm_num)
  unfold SegmenterSpec
  refine ⟨?_, segments_get T (D * 1000), ?_, ?_, ?_, ?_⟩
  · rw [segments_length, Nat.ceilDiv_eq_add_pred_div]
    rfl
  · intro i h h2
    rw [segments_get, segments_get]
    have hlt : (i + 1) * (D * 1000) < T := by
      rw [← lt_num_segments_iff hL, ← segments_length T (D * 1000)]
      exact h2
    simp [Nat.min_eq_left hlt.le]
  · intro h
    have h0 : 0 < (segments T (D * 1000)).length := List.length_pos.2 h
    have hh : (segments T (D * 1000)).head h
        = (segments T (D * 1000)).get ⟨0, h0⟩ := by
      rw [List.head_eq_getElem]
      rfl
    rw [hh, segments_get]
    simp
  · intro h
    have h0 : 0 < (segments T (D * 1000)).length := List.length_pos.2 h
    rw [List.getLast_eq_get, segments_get]
    have hone : (segments T (D * 1000)).length - 1 + 1
        = (segments T (D * 1000)).length := by omega
    rw [hone, segments_length]
    simp [Nat.min_eq_right (le_num_segments_mul hL T)]
  · intro t ht
    have hidx : t / (D * 1000) < (segments T (D * 1000)).length := by
      rw [segments_length]
      exact (lt_num_segments_iff hL T _).mpr
        (lt_of_le_of_lt (Nat.div_mul_le_self t (D * 1000)) ht)
    have hget := segments_get T (D * 1000) (t / (D * 1000)) hidx
    refine ⟨t / (D * 1000), ⟨hidx, ?_⟩, ?_⟩
    · rw [hget]
      exact ⟨Nat.div_mul_le_self t (D * 1000),
        lt_min ((Nat.div_lt_iff_lt_mul hL).1 (Nat.lt_succ_self _)) ht⟩
    · rintro j ⟨hj, hj1, hj2⟩
      rw [segments_get T (D * 1000) j hj] at hj1 hj2
      have hup : t < (j + 1) * (D * 1000) :=
        lt_of_lt_of_le hj2 (min_le_left _ _)
      exact (Nat.div_eq_of_lt_le hj1 hup).symm

/-- Witness for C1 at `D = 2`, `T = 5000` (three segments, last clipped). -/
theorem c1_segmenter_partition_witness : 0 < 2 ∧ SegmenterSpec 2 5000 :=
  ⟨by decide, c1_segmenter_partition 2 5000 (by decide)⟩

end TranscribeScript

